import Mathlib

/-!
# Verification of the generic OAuth2 client (`msal/oauth2.py`)

Shallow embedding of the single source file `src/msal/oauth2.py` of this
repository.  Python dicts are modelled as ordered association lists with
unique keys (insertion order preserved, as CPython dicts do); Python values
occurring in parameter dicts are modelled by `PyVal`; raised exceptions are
modelled with `Except PyExn`; the network call of `_get_token` is split into
the pure construction of the outgoing request (`Client.get_token_request`)
and the pure handling of the transport's response
(`handle_token_response`), composed in `Client.get_token` over an explicit
transport function.
-/

set_option autoImplicit false

namespace OAuth2

/-- A Python value as it can appear in the parameter dicts of `oauth2.py`:
`None`, a string, a list/tuple of strings (e.g. a scope given as a
collection), or some other opaque object (used to model `self` being passed
around by `**locals()`). -/
inductive PyVal where
  | none
  | str (s : String)
  | strList (l : List String)
  | obj
deriving DecidableEq, Repr

/-- A Python dict, as an insertion-ordered association list.  All dicts
built by the source have unique keys; lemmas that need this take a
`keysNodup` hypothesis. -/
abbrev PyDict := List (String × PyVal)

/-- The keys of the dict are pairwise distinct (true of every real Python
dict). -/
def keysNodup (d : PyDict) : Prop := (d.map Prod.fst).Nodup

instance (d : PyDict) : Decidable (keysNodup d) := by
  unfold keysNodup; infer_instance

/-- `d.get(k)` / `d[k]` lookup: first (= only, for a real dict) binding of
`k`. Returns `Option.none` when the key is absent. -/
def dictGet : PyDict → String → Option PyVal
  | [], _ => Option.none
  | p :: d, k => if p.1 = k then some p.2 else dictGet d k

/-- `d[k] = v`: replace the first binding of `k` in place, or append a new
binding when `k` is absent (CPython dict assignment keeps the original
insertion position of an existing key). -/
def setKey : PyDict → String → PyVal → PyDict
  | [], k, v => [(k, v)]
  | p :: d, k, v => if p.1 = k then (k, v) :: d else p :: setKey d k v

/-- `d.update(u)`: assign every binding of `u` into `d`, in order. -/
def dictUpdate (d u : PyDict) : PyDict :=
  u.foldl (fun acc p => setKey acc p.1 p.2) d

/-- `{k: v for k, v in d.items() if v is not None}`. -/
def dropNone (d : PyDict) : PyDict :=
  d.filter (fun p => p.2 != PyVal.none)

/-- Python truthiness of the values that occur in these dicts:
`None` and empty strings/collections are falsy. -/
def truthy : PyVal → Bool
  | .none => false
  | .str s => !s.isEmpty
  | .strList l => !l.isEmpty
  | .obj => true

/-- Truthiness of a `d.get(k)` result (`None` when the key is absent). -/
def truthyOpt : Option PyVal → Bool
  | Option.none => false
  | some v => truthy v

/-- Exceptions raised by the embedded code paths. -/
inductive PyExn where
  /-- `TypeError` (e.g. `'?' in None`, or a keyword argument that collides
  with an already-bound parameter). -/
  | typeErr (msg : String)
  /-- `AssertionError` from a failed `assert`. -/
  | assertErr (msg : String)
  /-- `ValueError` (the state-mismatch failure of `validate_authorization`). -/
  | valueErr (msg : String)
  /-- `requests.exceptions.HTTPError` raised by `Response.raise_for_status`. -/
  | httpErr (status : Nat)
deriving DecidableEq, Repr

/-- `Client.__init__` configuration (`oauth2.py` lines 17-29).
`client_secret = Option.none` models the Python default `None`;
`authorization_endpoint`/`token_endpoint` likewise. -/
structure Client where
  client_id : String
  client_secret : Option String := Option.none
  default_body : PyDict := []
  authorization_endpoint : Option String := Option.none
  token_endpoint : Option String := Option.none
deriving DecidableEq, Repr

/-- `Client._normalize_to_string` (lines 81-84): a list/set/tuple scope is
joined with single spaces; anything else is returned as-is. -/
def normalize_to_string : PyVal → PyVal
  | .strList l => .str (String.intercalate " " l)
  | v => v

/-- The conditional scope rewrite shared by `_authorization_url` (lines
36-37) and `_get_token` (lines 52-53):
`if d.get('scope'): d['scope'] = self._normalize_to_string(d['scope'])`. -/
def normalizeScopeInDict (d : PyDict) : PyDict :=
  if truthyOpt (dictGet d "scope") then
    setKey d "scope" (normalize_to_string ((dictGet d "scope").getD PyVal.none))
  else d

/-- One hexadecimal digit, upper case, as produced by Python's
percent-encoder. -/
def hexDigitChar (n : Nat) : Char :=
  if n < 10 then Char.ofNat (48 + n) else Char.ofNat (55 + n)

/-- `urllib.parse.quote_plus` on a single byte: alphanumerics and
`_.-~` kept, space becomes `+`, everything else `%XX`. -/
def quote_plus_byte (b : Nat) : String :=
  if (65 ≤ b ∧ b ≤ 90) ∨ (97 ≤ b ∧ b ≤ 122) ∨ (48 ≤ b ∧ b ≤ 57)
      ∨ b = 95 ∨ b = 46 ∨ b = 45 ∨ b = 126 then
    String.singleton (Char.ofNat b)
  else if b = 32 then "+"
  else String.mk ['%', hexDigitChar (b / 16), hexDigitChar (b % 16)]

/-- `urllib.parse.quote_plus` over the UTF-8 bytes of a string. -/
def quote_plus (s : String) : String :=
  String.join ((s.toUTF8.toList).map (fun b => quote_plus_byte b.toNat))

/-- `str(v)` as applied by `urlencode` to a dict value. -/
def pyStr : PyVal → String
  | .none => "None"
  | .str s => s
  | .strList l =>
      "[" ++ String.intercalate ", " (l.map (fun s => "\x27" ++ s ++ "\x27")) ++ "]"
  | .obj => "<object>"

/-- `urllib.parse.urlencode(d)`: `k=v` pairs joined by `&`, keys and
stringified values quoted with `quote_plus`. -/
def urlencode (d : PyDict) : String :=
  String.intercalate "&" (d.map (fun p => quote_plus p.1 ++ "=" ++ quote_plus (pyStr p.2)))

/-- The params dict assembled by `Client._authorization_url` (lines 33-37):
base `{client_id, response_type}`, updated with the keyword arguments
(a `None` value does override), then `None` values removed, then the scope
rewrite. -/
def Client.auth_url_params (c : Client) (response_type : String) (kwargs : PyDict) : PyDict :=
  normalizeScopeInDict (dropNone (dictUpdate
    [("client_id", PyVal.str c.client_id), ("response_type", PyVal.str response_type)]
    kwargs))

/-- `Client._authorization_url` (lines 31-39).  When
`authorization_endpoint` is `None`, the membership test
`'?' in self.authorization_endpoint` raises `TypeError`. -/
def Client.authorization_url (c : Client) (response_type : String) (kwargs : PyDict) :
    Except PyExn String :=
  let params := c.auth_url_params response_type kwargs
  match c.authorization_endpoint with
  | Option.none => .error (.typeErr "argument of type NoneType is not iterable")
  | some ep =>
      let sep := if ep.data.contains '?' then "&" else "?"
      .ok (ep ++ sep ++ urlencode params)

/-- The body merge of `Client._get_token` (lines 46-49):
`{client_id, grant_type}`, updated with `default_body`, updated with the
`None`-filtered keyword arguments. -/
def Client.token_request_body (c : Client) (grant_type : String) (kwargs : PyDict) : PyDict :=
  dictUpdate
    (dictUpdate [("client_id", PyVal.str c.client_id), ("grant_type", PyVal.str grant_type)]
      c.default_body)
    (dropNone kwargs)

/-- The body actually handed to the transport: the merge followed by the
scope rewrite of lines 52-53. -/
def Client.token_request_data (c : Client) (grant_type : String) (kwargs : PyDict) : PyDict :=
  normalizeScopeInDict (c.token_request_body grant_type kwargs)

/-- Lines 62-64: `auth = (client_id, client_secret)` exactly when
`self.client_secret and self.client_id` is truthy. -/
def Client.basic_auth (c : Client) : Option (String × String) :=
  match c.client_secret with
  | some secret =>
      if !secret.isEmpty && !c.client_id.isEmpty then some (c.client_id, secret)
      else Option.none
  | Option.none => Option.none

/-- The outgoing POST of line 67-69: URL, query string dict, form body,
and the optional HTTP Basic Auth pair.  (The constant
`Accept: application/json` header is not modelled as data.) -/
structure TokenRequest where
  url : String
  query : Option PyDict
  data : PyDict
  auth : Option (String × String)
deriving DecidableEq, Repr

/-- `Client._get_token` (lines 41-69) up to and including the `assert` of
line 66, producing the request that is POSTed: the `assert
self.token_endpoint` fails (AssertionError) when the endpoint is `None` or
any other falsy value such as `""`, before any request is built. -/
def Client.get_token_request (c : Client) (grant_type : String) (query : Option PyDict)
    (kwargs : PyDict) : Except PyExn TokenRequest :=
  let data := c.token_request_data grant_type kwargs
  let auth := c.basic_auth
  match c.token_endpoint with
  | Option.none => .error (.assertErr "You need to provide token_endpoint")
  | some ep =>
      if ep.isEmpty then .error (.assertErr "You need to provide token_endpoint")
      else .ok { url := ep, query := query, data := data, auth := auth }

/-- A transport response: HTTP status code plus the JSON object its body
decodes to (modelled as a string-to-string object, as in the RFC 6749 §5.2
examples). -/
structure HttpResponse where
  status_code : Nat
  body : List (String × String)
deriving DecidableEq, Repr

/-- `requests.models.Response.raise_for_status` on a status code: raises
`HTTPError` for client errors (400-499) and server errors (500-599) and
does nothing for every other code. -/
def raise_for_status (status : Nat) : Except PyExn Unit :=
  if 400 ≤ status ∧ status < 500 then .error (.httpErr status)
  else if 500 ≤ status ∧ status < 600 then .error (.httpErr status)
  else .ok ()

/-- Lines 70-75 of `_get_token`: `if resp.status_code>=500:
resp.raise_for_status()`, then `return resp.json()`. -/
def handle_token_response (resp : HttpResponse) : Except PyExn (List (String × String)) :=
  if resp.status_code ≥ 500 then
    match raise_for_status resp.status_code with
    | .error e => .error e
    | .ok _ => .ok resp.body
  else .ok resp.body

/-- The whole of `Client._get_token`, over an explicit transport. -/
def Client.get_token (c : Client) (grant_type : String) (query : Option PyDict)
    (kwargs : PyDict) (transport : TokenRequest → HttpResponse) :
    Except PyExn (List (String × String)) :=
  match c.get_token_request grant_type query kwargs with
  | .error e => .error e
  | .ok req => handle_token_response (transport req)

/-- Value of a hexadecimal digit character, or `Option.none`. -/
def hexVal : Char → Option Nat
  | c =>
    if 48 ≤ c.toNat ∧ c.toNat ≤ 57 then some (c.toNat - 48)
    else if 65 ≤ c.toNat ∧ c.toNat ≤ 70 then some (c.toNat - 55)
    else if 97 ≤ c.toNat ∧ c.toNat ≤ 102 then some (c.toNat - 87)
    else Option.none

/-- `urllib.parse.unquote_plus` over a character list: `+` becomes a space,
`%XX` with two hex digits decodes to that byte, an ill-formed `%` is kept
literally (faithful for ASCII input). -/
def unquote_plus_chars : List Char → List Char
  | [] => []
  | '+' :: rest => ' ' :: unquote_plus_chars rest
  | '%' :: c1 :: c2 :: rest =>
    match hexVal c1, hexVal c2 with
    | some h1, some h2 => Char.ofNat (16 * h1 + h2) :: unquote_plus_chars rest
    | _, _ => '%' :: unquote_plus_chars (c1 :: c2 :: rest)
  | c :: rest => c :: unquote_plus_chars rest

/-- `urllib.parse.unquote_plus` on a string. -/
def unquote_plus (s : String) : String :=
  String.mk (unquote_plus_chars s.data)

/-- `str.split(sep)` for a one-character separator, over character lists
(`"".split(sep)` is `[""]`, separators at the ends produce empty fields). -/
def splitChar (sep : Char) : List Char → List (List Char)
  | [] => [[]]
  | c :: rest =>
    if c = sep then [] :: splitChar sep rest
    else
      match splitChar sep rest with
      | [] => [[c]]
      | h :: t => (c :: h) :: t

/-- `str.split('=', 1)`: the part before the first `=` and the part after
it, or `Option.none` when there is no `=`. -/
def splitFirstEq : List Char → Option (List Char × List Char)
  | [] => Option.none
  | c :: rest =>
    if c = '=' then some ([], rest)
    else
      match splitFirstEq rest with
      | Option.none => Option.none
      | some (a, b) => some (c :: a, b)

/-- `urllib.parse.parse_qsl` with the default arguments
(`keep_blank_values=False`, `strict_parsing=False`): split on `&`, drop
empty fields, drop fields without `=` and fields with an empty value,
unquote names and values. -/
def parse_qsl (s : String) : List (String × String) :=
  (splitChar '&' s.data).filterMap (fun pair =>
    match pair with
    | [] => Option.none
    | _ :: _ =>
      match splitFirstEq pair with
      | Option.none => Option.none
      | some (name, value) =>
          match value with
          | [] => Option.none
          | _ :: _ =>
              some (unquote_plus (String.mk name), unquote_plus (String.mk value)))

/-- `urllib.parse.parse_qs`: group the `parse_qsl` pairs into a dict whose
values are the lists of values of each name, in first-appearance order. -/
def parse_qs (s : String) : List (String × List String) :=
  (parse_qsl s).foldl (fun acc kv =>
    if acc.any (fun p => p.1 = kv.1) then
      acc.map (fun p => if p.1 = kv.1 then (p.1, p.2 ++ [kv.2]) else p)
    else acc ++ [(kv.1, [kv.2])]) []

/-- The argument of `validate_authorization`: either an already-parsed dict
or a raw query/fragment string. -/
inductive AuthzParams where
  | dict (d : PyDict)
  | raw (s : String)
deriving DecidableEq, Repr

/-- Python `params.get('state') != state` for an expected state that is a
string or `None`: equal exactly when both are `None`, or both are the same
string.  A stored list (as produced by `parse_qs`) is never equal to a
string nor to `None`. -/
def stateEquals : Option PyVal → Option String → Bool
  | Option.none, Option.none => true
  | some PyVal.none, Option.none => true
  | some (PyVal.str s), some t => s = t
  | _, _ => false

/-- `validate_authorization` (lines 122-128): a non-dict argument is run
through `parse_qs` (yielding lists of strings as values), then
`params.get('state') != state` raises `ValueError('state mismatch')`, else
the params are returned. -/
def validate_authorization (params : AuthzParams) (state : Option String) :
    Except PyExn PyDict :=
  let p : PyDict :=
    match params with
    | .dict d => d
    | .raw s => (parse_qs s).map (fun kv => (kv.1, PyVal.strList kv.2))
  if stateEquals (dictGet p "state") state then .ok p
  else .error (.valueErr "state mismatch")

/-- CPython keyword-binding for the bound call
`super()._authorization_url('token', **kwargs)`: `self` is already bound by
the method descriptor and `response_type` is passed positionally, so a
keyword argument named `self` or `response_type` raises
`TypeError: got multiple values for argument ...`. -/
def boundAuthUrlCall (c : Client) (response_type : String) (kwargs : PyDict) :
    Except PyExn String :=
  if kwargs.any (fun p => p.1 = "self" || p.1 = "response_type") then
    .error (.typeErr "got multiple values for argument")
  else c.authorization_url response_type kwargs

/-- `ImplicitGrant.authorization_url` (lines 139-141):
`super(ImplicitGrant, self)._authorization_url('token', **locals())`.
`locals()` at that point is `{'self': self, 'redirect_uri': redirect_uri,
'scope': scope, 'state': state}`, so the keyword arguments include `self`
(an opaque object). -/
def ImplicitGrant.authorization_url (c : Client) (redirect_uri scope state : PyVal) :
    Except PyExn String :=
  boundAuthUrlCall c "token"
    [("self", PyVal.obj), ("redirect_uri", redirect_uri),
     ("scope", scope), ("state", state)]

/-- `AuthorizationCodeGrant.authorization_url` (lines 96-108): explicit
keyword arguments `redirect_uri`, `scope`, `state` plus the caller's extra
keyword arguments, forwarded to `_authorization_url('code', ...)`. -/
def AuthorizationCodeGrant.authorization_url (c : Client)
    (redirect_uri scope state : PyVal) (kwargs : PyDict) : Except PyExn String :=
  boundAuthUrlCall c "code"
    ([("redirect_uri", redirect_uri), ("scope", scope), ("state", state)] ++ kwargs)

/-! ## Spec-side definitions

These definitions are written from the specification's words, to be
compared with the code-side definitions above (refinement claims C1 and
C6). -/

/-- The key list of a dict. -/
def keys (d : PyDict) : List String := d.map Prod.fst

/-- Spec side (C1): the value the base pair `{client_id, grant_type}`
contributes for key `k`. -/
def specBaseValue (c : Client) (grant_type k : String) : Option PyVal :=
  if k = "client_id" then some (PyVal.str c.client_id)
  else if k = "grant_type" then some (PyVal.str grant_type)
  else Option.none

/-- Spec side (C1): the value key `k` gets when the caller does not
override it: the `defaultBody` value if configured, else the base pair. -/
def specDefaultOrBase (c : Client) (grant_type k : String) : Option PyVal :=
  match dictGet c.default_body k with
  | some v => some v
  | Option.none => specBaseValue c grant_type k

/-- Spec side (C1): the merge `{client_id, grant_type}` then `defaultBody`
then the caller's body parameters, where on a collision a caller non-`None`
value overrides and a caller `None` leaves the earlier value unchanged. -/
def specMergedBody (c : Client) (grant_type : String) (kwargs : PyDict) (k : String) :
    Option PyVal :=
  match dictGet kwargs k with
  | some v => if v = PyVal.none then specDefaultOrBase c grant_type k else some v
  | Option.none => specDefaultOrBase c grant_type k

/-- Spec side (C6): the state comparison described by the spec — a match
exactly when the stored and the expected state are equal, where both being
absent/`None` counts as a match, and a stored string matches the equal
expected string. -/
def specStateMatches (d : PyDict) (expectedState : Option String) : Bool :=
  match dictGet d "state", expectedState with
  | Option.none, Option.none => true
  | some PyVal.none, Option.none => true
  | some (PyVal.str s), some t => s = t
  | _, _ => false

/-! ## Dictionary lemmas -/

theorem keys_nil : keys [] = [] := rfl

theorem keys_cons (p : String × PyVal) (d : PyDict) :
    keys (p :: d) = p.1 :: keys d := rfl

theorem keysNodup_iff (d : PyDict) : keysNodup d ↔ (keys d).Nodup := Iff.rfl

theorem dictGet_setKey (d : PyDict) (k k' : String) (v : PyVal) :
    dictGet (setKey d k v) k' = if k = k' then some v else dictGet d k' := by
  induction d with
  | nil => simp [setKey, dictGet]
  | cons p d ih =>
    by_cases h : p.1 = k
    · by_cases h2 : k = k' <;> simp [setKey, dictGet, h, h2]
    · by_cases h2 : p.1 = k'
      · have h3 : ¬ k = k' := fun hk => h (h2.trans hk.symm)
        rw [setKey, if_neg h, dictGet, if_pos h2, if_neg h3, dictGet, if_pos h2]
      · rw [setKey, if_neg h, dictGet, if_neg h2, ih]
        by_cases h3 : k = k'
        · rw [if_pos h3, if_pos h3]
        · rw [if_neg h3, if_neg h3, dictGet, if_neg h2]

theorem dictGet_eq_none_iff (d : PyDict) (k : String) :
    dictGet d k = Option.none ↔ k ∉ keys d := by
  induction d with
  | nil => simp [dictGet, keys_nil]
  | cons p d ih =>
    rw [keys_cons, List.mem_cons, dictGet]
    by_cases h : p.1 = k
    · simp [h]
    · rw [if_neg h, ih]
      constructor
      · intro hn hk
        rcases hk with hk | hk
        · exact h hk.symm
        · exact hn hk
      · exact fun hn hk => hn (Or.inr hk)

theorem dictGet_eq_none_of_not_mem {d : PyDict} {k : String}
    (h : k ∉ keys d) : dictGet d k = Option.none :=
  (dictGet_eq_none_iff d k).mpr h

theorem mem_keys_of_dictGet_isSome {d : PyDict} {k : String} {v : PyVal}
    (h : dictGet d k = some v) : k ∈ keys d := by
  by_contra hk
  rw [dictGet_eq_none_of_not_mem hk] at h
  exact Option.noConfusion h

theorem dictGet_dictUpdate (d u : PyDict) (k : String) (hu : keysNodup u) :
    dictGet (dictUpdate d u) k =
      match dictGet u k with
      | some v => some v
      | Option.none => dictGet d k := by
  induction u generalizing d with
  | nil => simp [dictUpdate, dictGet]
  | cons p u ih =>
    rw [keysNodup_iff, keys_cons, List.nodup_cons] at hu
    have hu1 : p.1 ∉ keys u := hu.1
    have hu2 : keysNodup u := hu.2
    have hstep : dictUpdate d (p :: u) = dictUpdate (setKey d p.1 p.2) u := rfl
    rw [hstep, ih _ hu2]
    by_cases h : p.1 = k
    · subst h
      have hnone : dictGet u p.1 = Option.none := dictGet_eq_none_of_not_mem hu1
      simp [hnone, dictGet, dictGet_setKey]
    · simp only [dictGet, if_neg h]
      cases hgu : dictGet u k with
      | none => simp [dictGet_setKey, h]
      | some v => simp

theorem mem_keys_setKey (d : PyDict) (k a : String) (v : PyVal) :
    a ∈ keys (setKey d k v) ↔ a ∈ keys d ∨ a = k := by
  induction d with
  | nil => simp [setKey, keys]
  | cons p d ih =>
    by_cases h : p.1 = k
    · rw [setKey, if_pos h, keys_cons, keys_cons, List.mem_cons, List.mem_cons, h]
      tauto
    · rw [setKey, if_neg h, keys_cons, keys_cons, List.mem_cons, List.mem_cons, ih]
      tauto

theorem keysNodup_setKey {d : PyDict} (k : String) (v : PyVal)
    (hd : keysNodup d) : keysNodup (setKey d k v) := by
  induction d with
  | nil =>
    rw [keysNodup_iff]
    simp [setKey, keys]
  | cons p d ih =>
    rw [keysNodup_iff, keys_cons, List.nodup_cons] at hd
    have hp : p.1 ∉ keys d := hd.1
    have hd2 : keysNodup d := hd.2
    by_cases h : p.1 = k
    · rw [setKey, if_pos h, keysNodup_iff, keys_cons, List.nodup_cons]
      exact ⟨h ▸ hp, hd2⟩
    · rw [setKey, if_neg h, keysNodup_iff, keys_cons, List.nodup_cons]
      refine ⟨?_, ih hd2⟩
      intro hmem
      rcases (mem_keys_setKey d k p.1 v).mp hmem with h1 | h1
      · exact hp h1
      · exact h h1

theorem keysNodup_dictUpdate {d : PyDict} (u : PyDict) (hd : keysNodup d) :
    keysNodup (dictUpdate d u) := by
  induction u generalizing d with
  | nil => exact hd
  | cons p u ih => exact ih (keysNodup_setKey p.1 p.2 hd)

theorem keys_dropNone_subset (d : PyDict) : keys (dropNone d) ⊆ keys d := by
  intro a ha
  rcases List.mem_map.mp ha with ⟨p, hp, hpa⟩
  exact List.mem_map.mpr ⟨p, List.mem_of_mem_filter hp, hpa⟩

theorem dictGet_dropNone (d : PyDict) (k : String) (hd : keysNodup d) :
    dictGet (dropNone d) k =
      match dictGet d k with
      | some v => if v = PyVal.none then Option.none else some v
      | Option.none => Option.none := by
  induction d with
  | nil => simp [dropNone, dictGet]
  | cons p d ih =>
    rw [keysNodup_iff, keys_cons, List.nodup_cons] at hd
    have hp : p.1 ∉ keys d := hd.1
    have hd2 : keysNodup d := hd.2
    have ih2 := ih hd2
    by_cases h : p.1 = k
    · subst h
      by_cases hv : p.2 = PyVal.none
      · have hnone : dictGet (dropNone d) p.1 = Option.none :=
          dictGet_eq_none_of_not_mem (fun hm => hp (keys_dropNone_subset d hm))
        rw [show dropNone (p :: d) = dropNone d from by
              simp [dropNone, List.filter_cons, hv]]
        rw [hnone, dictGet, if_pos rfl, hv]
        simp
      · rw [show dropNone (p :: d) = p :: dropNone d from by
              simp [dropNone, List.filter_cons, hv]]
        rw [dictGet, if_pos rfl, dictGet, if_pos rfl]
        simp [hv]
    · by_cases hv : p.2 = PyVal.none
      · rw [show dropNone (p :: d) = dropNone d from by
              simp [dropNone, List.filter_cons, hv]]
        rw [ih2, dictGet, if_neg h]
      · rw [show dropNone (p :: d) = p :: dropNone d from by
              simp [dropNone, List.filter_cons, hv]]
        rw [dictGet, if_neg h, ih2, dictGet, if_neg h]

theorem mem_setKey {d : PyDict} {k : String} {v : PyVal} {p : String × PyVal}
    (h : p ∈ setKey d k v) : p ∈ d ∨ p = (k, v) := by
  induction d with
  | nil => simpa [setKey] using h
  | cons q d ih =>
    by_cases hq : q.1 = k
    · rw [setKey, if_pos hq] at h
      rcases List.mem_cons.mp h with h1 | h1
      · exact Or.inr h1
      · exact Or.inl (List.mem_cons_of_mem q h1)
    · rw [setKey, if_neg hq] at h
      rcases List.mem_cons.mp h with h1 | h1
      · exact Or.inl (h1 ▸ List.mem_cons_self q d)
      · rcases ih h1 with h2 | h2
        · exact Or.inl (List.mem_cons_of_mem q h2)
        · exact Or.inr h2

theorem mem_dropNone_ne_none {d : PyDict} {p : String × PyVal}
    (h : p ∈ dropNone d) : p.2 ≠ PyVal.none := by
  have := List.of_mem_filter h
  simpa using this

theorem normalize_to_string_ne_none {v : PyVal} (h : truthy v = true) :
    normalize_to_string v ≠ PyVal.none := by
  cases v with
  | none => simp [truthy] at h
  | str s => simp [normalize_to_string]
  | strList l => simp [normalize_to_string]
  | obj => simp [normalize_to_string]

theorem dictGet_normalizeScopeInDict_scope (d : PyDict) :
    dictGet (normalizeScopeInDict d) "scope" =
      match dictGet d "scope" with
      | some v => if truthy v then some (normalize_to_string v) else some v
      | Option.none => Option.none := by
  unfold normalizeScopeInDict
  cases hg : dictGet d "scope" with
  | none => simp [truthyOpt, hg]
  | some v =>
    by_cases ht : truthy v
    · simp [truthyOpt, hg, ht, dictGet_setKey]
    · simp [truthyOpt, hg, ht]

theorem dictGet_normalizeScopeInDict_other (d : PyDict) (k : String)
    (h : k ≠ "scope") :
    dictGet (normalizeScopeInDict d) k = dictGet d k := by
  unfold normalizeScopeInDict
  by_cases ht : truthyOpt (dictGet d "scope")
  · rw [if_pos ht, dictGet_setKey, if_neg (fun hs => h hs.symm)]
  · rw [if_neg ht]

theorem keysNodup_dropNone {d : PyDict} (hd : keysNodup d) :
    keysNodup (dropNone d) := by
  have hsub : List.Sublist (keys (dropNone d)) (keys d) :=
    (List.filter_sublist d).map Prod.fst
  exact hsub.nodup hd

theorem dictGet_dictUpdate_not_mem {u : PyDict} {k : String}
    (h : k ∉ keys u) (d : PyDict) :
    dictGet (dictUpdate d u) k = dictGet d k := by
  induction u generalizing d with
  | nil => rfl
  | cons p u ih =>
    rw [keys_cons, List.mem_cons] at h
    push_neg at h
    have hstep : dictUpdate d (p :: u) = dictUpdate (setKey d p.1 p.2) u := rfl
    rw [hstep, ih h.2, dictGet_setKey, if_neg (fun he => h.1 he.symm)]

theorem dictGet_base_pair (c : Client) (grant_type k : String) :
    dictGet [("client_id", PyVal.str c.client_id), ("grant_type", PyVal.str grant_type)] k
      = specBaseValue c grant_type k := by
  by_cases h1 : k = "client_id"
  · subst h1
    simp [dictGet, specBaseValue]
  · by_cases h2 : k = "grant_type"
    · subst h2
      simp [dictGet, specBaseValue]
    · have g1 : ¬ ("client_id" = k) := fun h => h1 h.symm
      have g2 : ¬ ("grant_type" = k) := fun h => h2 h.symm
      simp [dictGet, specBaseValue, h1, h2, g1, g2]

/-- The base pair of `_authorization_url` has no `"scope"` key. -/
theorem dictGet_auth_base_pair (c : Client) (response_type k : String)
    (h1 : k ≠ "client_id") (h2 : k ≠ "response_type") :
    dictGet [("client_id", PyVal.str c.client_id),
             ("response_type", PyVal.str response_type)] k = Option.none := by
  have g1 : ¬ ("client_id" = k) := fun h => h1 h.symm
  have g2 : ¬ ("response_type" = k) := fun h => h2 h.symm
  simp [dictGet, g1, g2]

/-- Closed form of the scope entry of the authorization-URL params in terms
of the caller's keyword arguments. -/
theorem auth_scope_get (c : Client) (response_type : String) (kwargs : PyDict)
    (hkw : keysNodup kwargs) :
    dictGet (c.auth_url_params response_type kwargs) "scope" =
      match dictGet kwargs "scope" with
      | some v =>
          if v = PyVal.none then Option.none
          else if truthy v then some (normalize_to_string v) else some v
      | Option.none => Option.none := by
  have hb : keysNodup [("client_id", PyVal.str c.client_id),
      ("response_type", PyVal.str response_type)] := by simp [keysNodup, keys]
  have hu : keysNodup (dictUpdate [("client_id", PyVal.str c.client_id),
      ("response_type", PyVal.str response_type)] kwargs) :=
    keysNodup_dictUpdate kwargs hb
  unfold Client.auth_url_params
  rw [dictGet_normalizeScopeInDict_scope, dictGet_dropNone _ _ hu,
    dictGet_dictUpdate _ _ _ hkw,
    dictGet_auth_base_pair c response_type "scope" (by decide) (by decide)]
  cases hs : dictGet kwargs "scope" with
  | none => simp
  | some v =>
    by_cases hv : v = PyVal.none
    · subst hv
      simp [truthy]
    · simp [hv]

/-- Closed form of the scope entry of the token-request body in terms of
the caller's keyword arguments, when `default_body` has no scope. -/
theorem token_scope_get (c : Client) (grant_type : String) (kwargs : PyDict)
    (hkw : keysNodup kwargs) (hdb : "scope" ∉ keys c.default_body) :
    dictGet (c.token_request_data grant_type kwargs) "scope" =
      match dictGet kwargs "scope" with
      | some v =>
          if v = PyVal.none then Option.none
          else if truthy v then some (normalize_to_string v) else some v
      | Option.none => Option.none := by
  unfold Client.token_request_data Client.token_request_body
  rw [dictGet_normalizeScopeInDict_scope,
    dictGet_dictUpdate _ _ _ (keysNodup_dropNone hkw),
    dictGet_dropNone _ _ hkw, dictGet_dictUpdate_not_mem hdb,
    dictGet_base_pair]
  have hbase : specBaseValue c grant_type "scope" = Option.none := by
    simp [specBaseValue]
  rw [hbase]
  cases hs : dictGet kwargs "scope" with
  | none => simp
  | some v =>
    by_cases hv : v = PyVal.none
    · subst hv
      simp [truthy]
    · simp [hv]

/-- A keyword argument whose value is `None` contributes no key to the
authorization-URL params. -/
theorem auth_params_drop_none_key (c : Client) (response_type : String)
    (kwargs : PyDict) (k : String) (hkw : keysNodup kwargs)
    (h : dictGet kwargs k = some PyVal.none) :
    dictGet (c.auth_url_params response_type kwargs) k = Option.none := by
  by_cases hs : k = "scope"
  · subst hs
    rw [auth_scope_get c response_type kwargs hkw, h]
    simp
  · have hb : keysNodup [("client_id", PyVal.str c.client_id),
        ("response_type", PyVal.str response_type)] := by simp [keysNodup, keys]
    have hu : keysNodup (dictUpdate [("client_id", PyVal.str c.client_id),
        ("response_type", PyVal.str response_type)] kwargs) :=
      keysNodup_dictUpdate kwargs hb
    unfold Client.auth_url_params
    rw [dictGet_normalizeScopeInDict_other _ _ hs, dictGet_dropNone _ _ hu,
      dictGet_dictUpdate _ _ _ hkw, h]
    simp

/-- Every entry of the authorization-URL params has a non-`None` value. -/
theorem auth_params_no_none_entry (c : Client) (response_type : String)
    (kwargs : PyDict) {p : String × PyVal}
    (hp : p ∈ c.auth_url_params response_type kwargs) : p.2 ≠ PyVal.none := by
  unfold Client.auth_url_params normalizeScopeInDict at hp
  set d := dropNone (dictUpdate [("client_id", PyVal.str c.client_id),
    ("response_type", PyVal.str response_type)] kwargs) with hd
  by_cases ht : truthyOpt (dictGet d "scope")
  · rw [if_pos ht] at hp
    rcases mem_setKey hp with h1 | h1
    · exact mem_dropNone_ne_none h1
    · cases hg : dictGet d "scope" with
      | none => rw [hg] at ht; exact absurd ht (by simp [truthyOpt])
      | some w =>
        rw [hg] at ht
        have hw : truthy w = true := by simpa [truthyOpt] using ht
        rw [h1]
        simpa [hg] using normalize_to_string_ne_none hw
  · rw [if_neg ht] at hp
    exact mem_dropNone_ne_none hp

/-! ## Claims -/

/-- **C1**: for every call to `_get_token`, the request body equals the
merge `{client_id, grant_type}` then `default_body` then the caller's body
parameters, where on a key collision a caller non-`None` value overrides
the `default_body` value and a caller `None` value leaves the earlier value
unchanged (`None` never overwrites a configured default). -/
theorem requestToken_merge_spec (c : Client) (grant_type : String) (kwargs : PyDict)
    (hdb : keysNodup c.default_body) (hkw : keysNodup kwargs) (k : String) :
    dictGet (c.token_request_body grant_type kwargs) k
      = specMergedBody c grant_type kwargs k := by
  unfold Client.token_request_body specMergedBody specDefaultOrBase
  rw [dictGet_dictUpdate _ _ _ (keysNodup_dropNone hkw),
    dictGet_dropNone _ _ hkw, dictGet_dictUpdate _ _ _ hdb, dictGet_base_pair]
  cases hkwk : dictGet kwargs k with
  | none =>
    cases dictGet c.default_body k with
    | none => simp
    | some w => simp
  | some v =>
    by_cases hv : v = PyVal.none
    · subst hv
      cases dictGet c.default_body k with
      | none => simp
      | some w => simp
    · simp [hv]

/-- Witness for C1 at a concrete client and call: the caller's
`redirect_uri = None` does not overwrite the configured default, while the
caller's `scope` does override it. -/
theorem requestToken_merge_spec_witness :
    dictGet (Client.token_request_body
        { client_id := "cid", client_secret := Option.none,
          default_body := [("redirect_uri", PyVal.str "https://default"),
                           ("scope", PyVal.str "default_scope")],
          authorization_endpoint := Option.none, token_endpoint := some "https://t" }
        "authorization_code"
        [("redirect_uri", PyVal.none), ("scope", PyVal.str "s1")]) "redirect_uri"
      = specMergedBody
        { client_id := "cid", client_secret := Option.none,
          default_body := [("redirect_uri", PyVal.str "https://default"),
                           ("scope", PyVal.str "default_scope")],
          authorization_endpoint := Option.none, token_endpoint := some "https://t" }
        "authorization_code"
        [("redirect_uri", PyVal.none), ("scope", PyVal.str "s1")] "redirect_uri" :=
  requestToken_merge_spec _ _ _ (by decide) (by decide) _

/-- **C2**: the token request uses HTTP Basic Auth with
`(client_id, client_secret)` exactly when both are non-empty; the request
the client POSTs carries exactly that auth choice; and the client itself
never puts a `client_secret` key into the body (one can only get there via
`default_body` or the caller's parameters). -/
theorem basic_auth_selection (c : Client) (grant_type : String) (query : Option PyDict)
    (kwargs : PyDict) (ep : String)
    (hdb : "client_secret" ∉ keys c.default_body)
    (hkw : "client_secret" ∉ keys kwargs)
    (hep : c.token_endpoint = some ep) (hne : ep ≠ "") :
    (c.basic_auth
        = if c.client_id ≠ "" ∧ c.client_secret.getD "" ≠ ""
          then some (c.client_id, c.client_secret.getD "") else Option.none)
  ∧ c.get_token_request grant_type query kwargs
      = .ok { url := ep, query := query,
              data := c.token_request_data grant_type kwargs, auth := c.basic_auth }
  ∧ dictGet (c.token_request_data grant_type kwargs) "client_secret" = Option.none := by
  refine ⟨?_, ?_, ?_⟩
  · unfold Client.basic_auth
    cases hs : c.client_secret with
    | none => simp
    | some secret =>
      by_cases h1 : secret = ""
      · subst h1
        simp [String.isEmpty]
      · by_cases h2 : c.client_id = ""
        · simp [String.isEmpty_iff, h1, h2]
        · simp [String.isEmpty_iff, h1, h2]
  · unfold Client.get_token_request
    rw [hep]
    simp [String.isEmpty_iff, hne]
  · have hsub : "client_secret" ∉ keys (dropNone kwargs) :=
      fun hm => hkw (keys_dropNone_subset kwargs hm)
    unfold Client.token_request_data Client.token_request_body
    rw [dictGet_normalizeScopeInDict_other _ _ (by decide),
      dictGet_dictUpdate_not_mem hsub, dictGet_dictUpdate_not_mem hdb,
      dictGet_base_pair]
    simp [specBaseValue]

/-- Witness for C2 at a concrete confidential client: Basic Auth is chosen
and the POSTed body carries no `client_secret`. -/
theorem basic_auth_selection_witness :
    Client.basic_auth
        { client_id := "cid", client_secret := some "sec", default_body := [],
          authorization_endpoint := Option.none, token_endpoint := some "https://t" }
      = if ("cid" : String) ≠ "" ∧ (some "sec" : Option String).getD "" ≠ ""
        then some ("cid", (some "sec" : Option String).getD "") else Option.none :=
  (basic_auth_selection
    { client_id := "cid", client_secret := some "sec", default_body := [],
      authorization_endpoint := Option.none, token_endpoint := some "https://t" }
    "client_credentials" Option.none [("scope", PyVal.str "read")] "https://t"
    (by decide) (by decide) rfl (by decide)).1

/-- **C3**: scope normalization, in both the authorization-URL params and
the token-request body: a collection scope is joined with single spaces in
the given order; a string scope passes through unchanged; an absent or
`None` scope is omitted entirely; an explicit empty-string scope is
preserved. -/
theorem scope_normalization_spec (c : Client) (response_type grant_type : String)
    (kwargs : PyDict) (hkw : keysNodup kwargs)
    (hdb : "scope" ∉ keys c.default_body) :
    (∀ l, l ≠ [] → dictGet kwargs "scope" = some (PyVal.strList l) →
        dictGet (c.auth_url_params response_type kwargs) "scope"
            = some (PyVal.str (String.intercalate " " l))
      ∧ dictGet (c.token_request_data grant_type kwargs) "scope"
            = some (PyVal.str (String.intercalate " " l)))
  ∧ (∀ s, dictGet kwargs "scope" = some (PyVal.str s) →
        dictGet (c.auth_url_params response_type kwargs) "scope" = some (PyVal.str s)
      ∧ dictGet (c.token_request_data grant_type kwargs) "scope" = some (PyVal.str s))
  ∧ ((dictGet kwargs "scope" = Option.none ∨ dictGet kwargs "scope" = some PyVal.none) →
        dictGet (c.auth_url_params response_type kwargs) "scope" = Option.none
      ∧ dictGet (c.token_request_data grant_type kwargs) "scope" = Option.none)
  ∧ (dictGet kwargs "scope" = some (PyVal.str "") →
        dictGet (c.auth_url_params response_type kwargs) "scope" = some (PyVal.str "")
      ∧ dictGet (c.token_request_data grant_type kwargs) "scope" = some (PyVal.str "")) := by
  have hauth := auth_scope_get c response_type kwargs hkw
  have htok := token_scope_get c grant_type kwargs hkw hdb
  refine ⟨?_, ?_, ?_, ?_⟩
  · intro l hl hs
    rw [hauth, htok, hs]
    have hne : (PyVal.strList l) ≠ PyVal.none := by simp
    have ht : truthy (PyVal.strList l) = true := by
      simp [truthy, List.isEmpty_iff, hl]
    simp [hne, ht, normalize_to_string]
  · intro s hs
    rw [hauth, htok, hs]
    by_cases he : s = ""
    · subst he
      simp [truthy, String.isEmpty]
    · have hie : s.isEmpty = false := by
        cases hx : s.isEmpty
        · rfl
        · exact absurd ((String.isEmpty_iff s).mp hx) he
      have ht : truthy (PyVal.str s) = true := by simp [truthy, hie]
      simp [ht, normalize_to_string]
  · intro hs
    rcases hs with hs | hs
    · rw [hauth, htok, hs]
      exact ⟨rfl, rfl⟩
    · rw [hauth, htok, hs]
      simp
  · intro hs
    rw [hauth, htok, hs]
    simp [truthy, String.isEmpty]

/-- Witness for C3 at a concrete call: `scope = ["read", "write"]` is sent
as `"read write"` in both places. -/
theorem scope_normalization_spec_witness :
    dictGet (Client.auth_url_params
        { client_id := "cid", client_secret := Option.none, default_body := [],
          authorization_endpoint := some "https://e/a", token_endpoint := Option.none }
        "code" [("scope", PyVal.strList ["read", "write"])]) "scope"
      = some (PyVal.str (String.intercalate " " ["read", "write"]))
  ∧ dictGet (Client.token_request_data
        { client_id := "cid", client_secret := Option.none, default_body := [],
          authorization_endpoint := some "https://e/a", token_endpoint := Option.none }
        "authorization_code" [("scope", PyVal.strList ["read", "write"])]) "scope"
      = some (PyVal.str (String.intercalate " " ["read", "write"])) :=
  (scope_normalization_spec
    { client_id := "cid", client_secret := Option.none, default_body := [],
      authorization_endpoint := some "https://e/a", token_endpoint := Option.none }
    "code" "authorization_code" [("scope", PyVal.strList ["read", "write"])]
    (by decide) (by decide)).1 ["read", "write"] (by decide) rfl

/-- **C4** is falsified as stated by any status code `≥ 600` (such codes do
reach `requests`' `Response.status_code` from nonconforming servers): the
status is `≥ 500`, yet `raise_for_status` raises only for 400-599, so the
body is returned instead of a `ServerError`. -/
theorem token_response_600_counterexample :
    (500 : Nat) ≤ 600
  ∧ handle_token_response ⟨600, [("error", "server_error")]⟩
      = .ok [("error", "server_error")] := ⟨by decide, rfl⟩

/-- **C4** (amended): a status in 500-599 fails with the `ServerError`
(`requests.HTTPError`); every other status — all 4xx included, and also
out-of-range codes `≥ 600` — returns the decoded JSON body unchanged. -/
theorem token_response_handling (resp : HttpResponse) :
    (500 ≤ resp.status_code ∧ resp.status_code < 600 →
      handle_token_response resp = .error (.httpErr resp.status_code))
  ∧ (resp.status_code < 500 ∨ 600 ≤ resp.status_code →
      handle_token_response resp = .ok resp.body) := by
  constructor
  · rintro ⟨h1, h2⟩
    have hn : ¬ (400 ≤ resp.status_code ∧ resp.status_code < 500) := by omega
    unfold handle_token_response raise_for_status
    rw [if_pos h1, if_neg hn, if_pos ⟨h1, h2⟩]
  · intro h
    unfold handle_token_response raise_for_status
    rcases h with h | h
    · rw [if_neg (by omega : ¬ resp.status_code ≥ 500)]
    · rw [if_pos (by omega : resp.status_code ≥ 500),
        if_neg (by omega : ¬ (400 ≤ resp.status_code ∧ resp.status_code < 500)),
        if_neg (by omega : ¬ (500 ≤ resp.status_code ∧ resp.status_code < 600))]

/-- Witness for C4 (amended): a 503 raises the `ServerError`, a 400 body is
returned as data. -/
theorem token_response_handling_witness :
    handle_token_response ⟨503, [("error", "x")]⟩ = .error (.httpErr 503)
  ∧ handle_token_response ⟨400, [("error", "invalid_scope")]⟩
      = .ok [("error", "invalid_scope")] :=
  ⟨(token_response_handling ⟨503, [("error", "x")]⟩).1 (by decide),
   (token_response_handling ⟨400, [("error", "invalid_scope")]⟩).2 (Or.inl (by decide))⟩

/-- **C5**: evaluation of `validate_authorization` at the claim's success
example.  `parse_qs` does parse the string into a multi-valued mapping, but
the code then compares the whole list `["xyz"]` (not its first element)
against the string `"xyz"`, so the call raises `ValueError` instead of
returning the parsed mapping — with a string argument and a string expected
state, validation can never succeed. -/
theorem validate_authorization_string_example :
    parse_qs "state=xyz&code=abc" = [("state", ["xyz"]), ("code", ["abc"])]
  ∧ validate_authorization (.raw "state=xyz&code=abc") (some "xyz")
      = .error (.valueErr "state mismatch") := ⟨rfl, rfl⟩

/-- **C6**: with a pre-parsed mapping, `validate_authorization` returns the
mapping unchanged exactly when the stored state equals the expected state —
both being absent/`None` counts as a match — and raises the state-mismatch
`ValueError` on any inequality. -/
theorem validate_authorization_dict_spec (d : PyDict) (st : Option String) :
    (specStateMatches d st = true → validate_authorization (.dict d) st = .ok d)
  ∧ (specStateMatches d st = false →
      validate_authorization (.dict d) st = .error (.valueErr "state mismatch")) := by
  have hagree : stateEquals (dictGet d "state") st = specStateMatches d st := by
    unfold stateEquals specStateMatches
    cases dictGet d "state" with
    | none => cases st <;> rfl
    | some v => cases v <;> cases st <;> rfl
  constructor
  · intro h
    show (if stateEquals (dictGet d "state") st = true
          then (Except.ok d : Except PyExn PyDict)
          else .error (.valueErr "state mismatch")) = .ok d
    rw [hagree, h]
    rfl
  · intro h
    show (if stateEquals (dictGet d "state") st = true
          then (Except.ok d : Except PyExn PyDict)
          else .error (.valueErr "state mismatch"))
        = .error (.valueErr "state mismatch")
    rw [hagree, h]
    rfl

/-- Witness for C6: `validate_authorization({"code": "abc"}, None)`
succeeds with the mapping returned unchanged (both states absent), and a
genuine mismatch raises. -/
theorem validate_authorization_dict_spec_witness :
    validate_authorization (.dict [("code", PyVal.str "abc")]) Option.none
      = .ok [("code", PyVal.str "abc")]
  ∧ validate_authorization (.dict [("state", PyVal.str "xyz")]) (some "wrong")
      = .error (.valueErr "state mismatch") :=
  ⟨(validate_authorization_dict_spec [("code", PyVal.str "abc")] Option.none).1 (by decide),
   (validate_authorization_dict_spec [("state", PyVal.str "xyz")] (some "wrong")).2 (by decide)⟩

/-- **C7**: evaluation of `ImplicitGrant.authorization_url` at a fully
configured client: because `**locals()` passes `self` as a keyword argument
to the bound method, every call raises
`TypeError: got multiple values for argument`, and no URL is ever built. -/
theorem implicit_grant_authorization_url_raises :
    ImplicitGrant.authorization_url
      { client_id := "my_client", client_secret := Option.none, default_body := [],
        authorization_endpoint := some "https://login.example.com/authorize",
        token_endpoint := Option.none }
      PyVal.none PyVal.none PyVal.none
      = .error (.typeErr "got multiple values for argument") := rfl

/-- **C8**: with no `authorization_endpoint` configured,
`_authorization_url` fails (the `'?' in None` membership test raises before
any URL is produced); with no (or empty, hence falsy) `token_endpoint`,
`_get_token` fails at its `assert` before any request value is built — the
`Except.error` results carry no URL and no `TokenRequest`. -/
theorem endpoint_preconditions (c c2 : Client) (response_type grant_type : String)
    (kwargs kwargs2 : PyDict) (query : Option PyDict)
    (ha : c.authorization_endpoint = Option.none)
    (ht : c2.token_endpoint = Option.none ∨ c2.token_endpoint = some "") :
    c.authorization_url response_type kwargs
      = .error (.typeErr "argument of type NoneType is not iterable")
  ∧ c2.get_token_request grant_type query kwargs2
      = .error (.assertErr "You need to provide token_endpoint") := by
  constructor
  · unfold Client.authorization_url
    rw [ha]
  · unfold Client.get_token_request
    rcases ht with ht | ht
    · rw [ht]
    · rw [ht]
      simp [String.isEmpty]

/-- Witness for C8: a client configured with neither endpoint fails both
calls. -/
theorem endpoint_preconditions_witness :
    Client.authorization_url
        { client_id := "cid", client_secret := Option.none, default_body := [],
          authorization_endpoint := Option.none, token_endpoint := Option.none }
        "code" []
      = .error (.typeErr "argument of type NoneType is not iterable")
  ∧ Client.get_token_request
        { client_id := "cid", client_secret := Option.none, default_body := [],
          authorization_endpoint := Option.none, token_endpoint := Option.none }
        "client_credentials" Option.none []
      = .error (.assertErr "You need to provide token_endpoint") :=
  endpoint_preconditions
    { client_id := "cid", client_secret := Option.none, default_body := [],
      authorization_endpoint := Option.none, token_endpoint := Option.none }
    { client_id := "cid", client_secret := Option.none, default_body := [],
      authorization_endpoint := Option.none, token_endpoint := Option.none }
    "code" "client_credentials" [] [] Option.none rfl (Or.inl rfl)

/-- **C9**: every `None`-valued parameter is dropped from the
authorization-URL params before serialization — the serialized query is the
urlencoding of a dict with no `None` values, in which a key the caller set
to `None` does not appear — and the query is appended with `?` when the
endpoint contains no `?` and with `&` when it already does. -/
theorem auth_url_none_dropping (c : Client) (response_type : String)
    (kwargs : PyDict) (ep : String)
    (hkw : keysNodup kwargs) (hep : c.authorization_endpoint = some ep) :
    (∀ p ∈ c.auth_url_params response_type kwargs, p.2 ≠ PyVal.none)
  ∧ (∀ k, dictGet kwargs k = some PyVal.none →
      dictGet (c.auth_url_params response_type kwargs) k = Option.none)
  ∧ (ep.data.contains '?' = false →
      c.authorization_url response_type kwargs
        = .ok (ep ++ "?" ++ urlencode (c.auth_url_params response_type kwargs)))
  ∧ (ep.data.contains '?' = true →
      c.authorization_url response_type kwargs
        = .ok (ep ++ "&" ++ urlencode (c.auth_url_params response_type kwargs))) := by
  refine ⟨?_, ?_, ?_, ?_⟩
  · intro p hp
    exact auth_params_no_none_entry c response_type kwargs hp
  · intro k hk
    exact auth_params_drop_none_key c response_type kwargs k hkw hk
  · intro h
    unfold Client.authorization_url
    rw [hep]
    have h2 : ¬ ('?' ∈ ep.data) := by simpa using h
    simp [h2]
  · intro h
    unfold Client.authorization_url
    rw [hep]
    have h2 : '?' ∈ ep.data := by simpa using h
    simp [h2]

/-- Witness for C9: `state=None` is dropped from the params, and the query
is appended with `?` to an endpoint without one. -/
theorem auth_url_none_dropping_witness :
    dictGet (Client.auth_url_params
        { client_id := "cid", client_secret := Option.none, default_body := [],
          authorization_endpoint := some "https://e/a", token_endpoint := Option.none }
        "code" [("state", PyVal.none)]) "state" = Option.none
  ∧ Client.authorization_url
        { client_id := "cid", client_secret := Option.none, default_body := [],
          authorization_endpoint := some "https://e/a", token_endpoint := Option.none }
        "code" [("state", PyVal.none)]
      = .ok ("https://e/a" ++ "?" ++ urlencode (Client.auth_url_params
          { client_id := "cid", client_secret := Option.none, default_body := [],
            authorization_endpoint := some "https://e/a", token_endpoint := Option.none }
          "code" [("state", PyVal.none)])) :=
  ⟨(auth_url_none_dropping
      { client_id := "cid", client_secret := Option.none, default_body := [],
        authorization_endpoint := some "https://e/a", token_endpoint := Option.none }
      "code" [("state", PyVal.none)] "https://e/a" (by decide) rfl).2.1
      "state" (by decide),
   (auth_url_none_dropping
      { client_id := "cid", client_secret := Option.none, default_body := [],
        authorization_endpoint := some "https://e/a", token_endpoint := Option.none }
      "code" [("state", PyVal.none)] "https://e/a" (by decide) rfl).2.2.1 (by decide)⟩

/-- **C10** (implicit): in `_authorization_url` the caller's keyword
arguments override the base `{client_id, response_type}` pair before the
`None` filter runs, so an explicit `client_id=None` (or
`response_type=None`) keyword argument removes that mandatory key from the
params — and hence from the URL — entirely. -/
theorem auth_url_mandatory_keys_removable (c : Client) (response_type : String)
    (kwargs : PyDict) (hkw : keysNodup kwargs) :
    (dictGet kwargs "client_id" = some PyVal.none →
      "client_id" ∉ keys (c.auth_url_params response_type kwargs))
  ∧ (dictGet kwargs "response_type" = some PyVal.none →
      "response_type" ∉ keys (c.auth_url_params response_type kwargs)) := by
  constructor
  · intro h
    exact (dictGet_eq_none_iff _ _).mp
      (auth_params_drop_none_key c response_type kwargs "client_id" hkw h)
  · intro h
    exact (dictGet_eq_none_iff _ _).mp
      (auth_params_drop_none_key c response_type kwargs "response_type" hkw h)

/-- Witness for C10: passing `client_id=None` as an extra parameter deletes
the mandatory `client_id` key from the params dict. -/
theorem auth_url_mandatory_keys_removable_witness :
    "client_id" ∉ keys (Client.auth_url_params
      { client_id := "cid", client_secret := Option.none, default_body := [],
        authorization_endpoint := some "https://e/a", token_endpoint := Option.none }
      "code" [("client_id", PyVal.none)]) :=
  (auth_url_mandatory_keys_removable
    { client_id := "cid", client_secret := Option.none, default_body := [],
      authorization_endpoint := some "https://e/a", token_endpoint := Option.none }
    "code" [("client_id", PyVal.none)] (by decide)).1 (by decide)

end OAuth2
